import Mathlib

/-!
Verification of the Toulmini argument-chain validator (`src/toulmini`).

Python text values are modelled as `List Char`: Python `len` is `List.length`
(both count code points), slicing `s[:n]` is `List.take n`, `str.strip()` is
trimming ASCII whitespace at both ends, `str.lower()` is `Char.toLower` on
every character, and the substring test `a in b` is `containsSub`.

Validation follows pydantic v2 semantics as used by the repository: for each
field, the declared constraints (`min_length`, `max_length`, `Literal`
membership, numeric bounds) run first, then the `field_validator`s in class
declaration order, then the `model_validator(mode="after")`.  Errors are
modelled structurally (one inductive per model) together with the class of
Python exception each corresponds to, because `toulmini.server` dispatches on
exception class.
-/

namespace Toulmini

/-- Python text, one `Char` per code point. -/
abbrev Str := List Char

/-- Convenience conversion from a Lean string literal. -/
def strLit (s : String) : Str := s.toList

/-- Python `str.lower()` (restricted to the simple one-to-one case folding). -/
def pyLower (s : Str) : Str := s.map Char.toLower

/-- Python `str.strip()`: remove whitespace from both ends. -/
def pyStrip (s : Str) : Str :=
  ((s.dropWhile Char.isWhitespace).reverse.dropWhile Char.isWhitespace).reverse

/-- Python `needle in hay` for strings: `needle` occurs as a contiguous
substring of `hay`.  (`"" in s` is `True`, matching `[].isPrefixOf`.) -/
def containsSub : Str → Str → Bool
  | needle, [] => needle.isPrefixOf ([] : Str)
  | needle, c :: rest => needle.isPrefixOf (c :: rest) || containsSub needle rest

/-- Python `sep.join(xs)`. -/
def joinSep (sep : Str) : List Str → Str
  | [] => []
  | [x] => x
  | x :: y :: rest => x ++ sep ++ joinSep sep (y :: rest)

/-- `Except` success test (avoiding any dependence on library helpers). -/
def isOkE : Except ε α → Bool
  | .ok _ => true
  | .error _ => false

/-! ## `models/base.py`: shared vocabularies and `Citation` -/

/-- `QualifierValue` literal values (`models/base.py`). -/
def qualifierValues : List Str :=
  [strLit "certainly", strLit "presumably", strLit "probably",
   strLit "possibly", strLit "apparently", strLit "unless"]

/-- `VerdictOutcome` literal values (`models/base.py`). -/
def verdictOutcomes : List Str := [strLit "STANDS", strLit "FALLS", strLit "QUALIFIED"]

/-- `BackingStrength` literal values (`models/base.py`). -/
def backingStrengths : List Str := [strLit "strong", strLit "moderate", strLit "weak"]

/-- `LogicType` literal values (`models/base.py`). -/
def logicTypes : List Str := [strLit "deductive", strLit "inductive", strLit "abductive"]

/-- `EvidenceType` literal values (`models/base.py`). -/
def evidenceTypes : List Str :=
  [strLit "empirical", strLit "statistical", strLit "testimonial",
   strLit "documentary", strLit "expert"]

/-- `RebuttalSeverity` literal values (`models/base.py`, line 31). -/
def rebuttalSeverities : List Str :=
  [strLit "fatal", strLit "significant", strLit "minor", strLit "negligible"]

/-- `Citation` (`models/base.py`): `source` and `reference` have
`min_length=1`; `url` is optional. -/
structure Citation where
  source : Str
  reference : Str
  url : Option Str := none
  deriving DecidableEq

/-- Field constraints of `Citation`: both mandatory fields non-empty. -/
def citationOk (c : Citation) : Bool :=
  1 ≤ c.source.length && 1 ≤ c.reference.length

/-! ## `models/components.py`: the seven component schemas -/

/-- Validated `Data` record.  After validation each fact is stored stripped,
because `validate_facts_not_empty` appends `fact.strip()` to the result. -/
structure DataC where
  facts : List Str
  citations : List Citation
  evidence_type : Str
  deriving DecidableEq

/-- Validation failures of `Data`, one constructor per `ValueError` site. -/
inductive DataErr where
  | factsEmpty
  | factTooShort (idx : Nat)
  | citationsEmpty
  | badCitation (idx : Nat)
  | badEvidenceType
  deriving DecidableEq

/-- `Data.validate_facts_not_empty` (`components.py` lines 38-48): walk the
facts with their 1-based position, strip each, fail on the first whose
stripped form is shorter than 10 characters, and keep the stripped form. -/
def validateFactsFrom (i : Nat) : List Str → Except DataErr (List Str)
  | [] => .ok []
  | f :: rest =>
    let f' := pyStrip f
    if f'.length < 10 then .error (.factTooShort (i + 1))
    else
      match validateFactsFrom (i + 1) rest with
      | .error e => .error e
      | .ok rest' => .ok (f' :: rest')

/-- Check a list of citations, reporting the 1-based index of the first bad one. -/
def validateCitationsFrom (i : Nat) : List Citation → Option Nat
  | [] => none
  | c :: rest => if citationOk c then validateCitationsFrom (i + 1) rest else some (i + 1)

/-- `Data` model validation: `facts` has `min_length=1` and the
`validate_facts_not_empty` validator; `citations` has `min_length=1` with
nested `Citation` validation; `evidence_type` is an `EvidenceType` literal. -/
def validateData (facts : List Str) (citations : List Citation) (etype : Str) :
    Except DataErr DataC :=
  if facts.length < 1 then .error .factsEmpty
  else
    match validateFactsFrom 0 facts with
    | .error e => .error e
    | .ok facts' =>
      if citations.length < 1 then .error .citationsEmpty
      else
        match validateCitationsFrom 0 citations with
        | some i => .error (.badCitation i)
        | none =>
          if etype ∈ evidenceTypes then .ok ⟨facts', citations, etype⟩
          else .error .badEvidenceType

/-- Validated `Claim` record: statement stored stripped, scope lower-cased
(both validators return the transformed value). -/
structure ClaimC where
  statement : Str
  scope : Str
  deriving DecidableEq

/-- Validation failures of `Claim`. -/
inductive ClaimErr where
  | statementLen
  | interrogative
  | badScope
  deriving DecidableEq

/-- Allowed claim scopes (`Claim.validate_scope`, `components.py` line 79). -/
def scopeValues : List Str :=
  [strLit "universal", strLit "general", strLit "specific", strLit "singular"]

/-- `Claim` model validation (`components.py` lines 51-82): statement length
between 20 and 500, then stripped and refused when it ends in a question
mark; scope lower-cased and checked against `scopeValues`. -/
def validateClaim (statement scope : Str) : Except ClaimErr ClaimC :=
  if statement.length < 20 ∨ 500 < statement.length then .error .statementLen
  else
    let v := pyStrip statement
    if (strLit "?").isSuffixOf v then .error .interrogative
    else if pyLower scope ∈ scopeValues then .ok ⟨v, pyLower scope⟩
    else .error .badScope

/-- Validated `Warrant` record.  NOTE: the `Warrant` model in
`components.py` (lines 85-114) declares only `principle` and `logic_type`;
it has no `strength` field and no `logic_check` method. -/
structure WarrantC where
  principle : Str
  logic_type : Str
  deriving DecidableEq

/-- Validation failures of `Warrant`. -/
inductive WarrantErr where
  | principleLen
  | notGeneral
  | badLogicType
  deriving DecidableEq

/-- `general_indicators` of `Warrant.validate_principle_is_general`. -/
def generalIndicators : List Str :=
  [strLit "if", strLit "when", strLit "whenever", strLit "generally",
   strLit "typically", strLit "because", strLit "since",
   strLit "as a rule", strLit "it follows"]

/-- A warrant JSON payload as received by the server.  `strength` appears in
every payload the repository's tests and tool docstrings exchange, but the
`Warrant` model declares no such field, so pydantic (default `extra`
behaviour) silently drops it during validation. -/
structure WarrantPayload where
  principle : Str
  logic_type : Str
  strength : Option Str := none
  deriving DecidableEq

/-- `Warrant` model validation (`components.py` lines 85-114): principle
length between 30 and 800, stripped, then required to contain a general
indicator (case-insensitive substring) unless at least 100 characters long;
`logic_type` must be a `LogicType` literal.  The payload's `strength` field
is ignored because the model does not declare it. -/
def validateWarrant (p : WarrantPayload) : Except WarrantErr WarrantC :=
  if p.principle.length < 30 ∨ 800 < p.principle.length then .error .principleLen
  else
    let v := pyStrip p.principle
    let hasGeneral := generalIndicators.any fun ind => containsSub ind (pyLower v)
    if !hasGeneral ∧ v.length < 100 then .error .notGeneral
    else if p.logic_type ∈ logicTypes then .ok ⟨v, p.logic_type⟩
    else .error .badLogicType

/-- Validated `Backing` record. -/
structure BackingC where
  authority : Str
  citations : List Citation
  strength : Str
  deriving DecidableEq

/-- Validation failures of `Backing`.  The first four arise from field
constraints and are pydantic `ValidationError`s (hence `ValueError`s); the
last is the `WeakBackingError` raised by the `reject_weak_backing` model
validator, whose class `ToulminiError` extends `Exception`, not
`ValueError`. -/
inductive BackingErr where
  | authorityLen
  | citationsEmpty
  | badCitation (idx : Nat)
  | badStrength
  | weakBacking
  deriving DecidableEq

/-- Whether a `Backing` validation failure surfaces as a Python `ValueError`
(pydantic `ValidationError`) rather than as `WeakBackingError`. -/
def backingErrIsValueError : BackingErr → Bool
  | .weakBacking => false
  | _ => true

/-- A backing JSON payload. -/
structure BackingPayload where
  authority : Str
  citations : List Citation
  strength : Str
  deriving DecidableEq

/-- `Backing` model validation (`components.py` lines 117-146): authority
length between 20 and 1000, at least one citation, strength a
`BackingStrength` literal; then `reject_weak_backing` raises
`WeakBackingError` whenever `strength == "weak"`, unconditionally. -/
def validateBacking (p : BackingPayload) : Except BackingErr BackingC :=
  if p.authority.length < 20 ∨ 1000 < p.authority.length then .error .authorityLen
  else if p.citations.length < 1 then .error .citationsEmpty
  else
    match validateCitationsFrom 0 p.citations with
    | some i => .error (.badCitation i)
    | none =>
      if p.strength ∈ backingStrengths then
        if p.strength = strLit "weak" then .error .weakBacking
        else .ok ⟨p.authority, p.citations, p.strength⟩
      else .error .badStrength

/-- Validated `Rebuttal` record: edge cases stored stripped. -/
structure RebuttalC where
  edge_cases : List Str
  counterexamples : List Str
  limitations : Str
  severity : Str
  deriving DecidableEq

/-- Validation failures of `Rebuttal`. -/
inductive RebuttalErr where
  | edgeCasesEmpty
  | edgeTooShort (idx : Nat)
  | edgeNotConditional (idx : Nat)
  | limitationsLen
  | badSeverity
  deriving DecidableEq

/-- `conditional_words` of `Rebuttal.validate_edge_cases_are_conditional`
(`components.py` line 176). -/
def conditionalWords : List Str :=
  [strLit "if", strLit "when", strLit "unless", strLit "except",
   strLit "in case", strLit "should", strLit "were", strLit "would"]

/-- Whether a (stripped) edge case contains some conditional marker as a
case-insensitive substring (`word in case.lower()` over `conditional_words`). -/
def hasCondMarker (s : Str) : Bool :=
  conditionalWords.any fun w => containsSub w (pyLower s)

/-- `Rebuttal.validate_edge_cases_are_conditional` (`components.py` lines
171-187): walk the edge cases with their 1-based position, strip each, fail
on the first whose stripped form is shorter than 15 characters or contains
no conditional marker, and keep the stripped form. -/
def validateEdgeCasesFrom (i : Nat) : List Str → Except RebuttalErr (List Str)
  | [] => .ok []
  | c :: rest =>
    let c' := pyStrip c
    if c'.length < 15 then .error (.edgeTooShort (i + 1))
    else if !hasCondMarker c' then .error (.edgeNotConditional (i + 1))
    else
      match validateEdgeCasesFrom (i + 1) rest with
      | .error e => .error e
      | .ok rest' => .ok (c' :: rest')

/-- A rebuttal JSON payload: `edge_cases`, optional `counterexamples`
(default `[]`), `limitations`, `severity`. -/
structure RebuttalPayload where
  edge_cases : List Str
  counterexamples : List Str := []
  limitations : Str
  severity : Str
  deriving DecidableEq

/-- `Rebuttal` model validation (`components.py` lines 149-187): at least one
edge case, each stripped, at least 15 characters, and containing a
conditional marker; `limitations` at least 20 characters; `severity` a
`RebuttalSeverity` literal (`fatal`, `significant`, `minor`,
`negligible`). -/
def validateRebuttal (p : RebuttalPayload) : Except RebuttalErr RebuttalC :=
  if p.edge_cases.length < 1 then .error .edgeCasesEmpty
  else
    match validateEdgeCasesFrom 0 p.edge_cases with
    | .error e => .error e
    | .ok cases' =>
      if p.limitations.length < 20 then .error .limitationsLen
      else if p.severity ∈ rebuttalSeverities then
        .ok ⟨cases', p.counterexamples, p.limitations, p.severity⟩
      else .error .badSeverity

/-- Validated `Qualifier` record: rationale stored stripped. -/
structure QualifierC where
  degree : Str
  rationale : Str
  confidence_pct : Int
  deriving DecidableEq

/-- Validation failures of `Qualifier`. -/
inductive QualifierErr where
  | badDegree
  | rationaleLen
  | rationaleNoExplanation
  | confidenceRange
  deriving DecidableEq

/-- `explanation_words` of `Qualifier.validate_rationale_explains_choice`. -/
def explanationWords : List Str :=
  [strLit "because", strLit "since", strLit "given", strLit "considering",
   strLit "due to", strLit "based on"]

/-- `Qualifier` model validation (`components.py` lines 190-219): degree a
`QualifierValue` literal; rationale between 30 and 500 characters, stripped,
and containing an explanation word; confidence between 0 and 100. -/
def validateQualifier (degree rationale : Str) (confidence : Int) :
    Except QualifierErr QualifierC :=
  if degree ∈ qualifierValues then
    if rationale.length < 30 ∨ 500 < rationale.length then .error .rationaleLen
    else
      let v := pyStrip rationale
      if !(explanationWords.any fun w => containsSub w (pyLower v)) then
        .error .rationaleNoExplanation
      else if confidence < 0 ∨ 100 < confidence then .error .confidenceRange
      else .ok ⟨degree, v, confidence⟩
  else .error .badDegree

/-- Validated `Verdict` record: reasoning stored stripped. -/
structure VerdictC where
  outcome : Str
  reasoning : Str
  final_statement : Str
  deriving DecidableEq

/-- Validation failures of `Verdict`. -/
inductive VerdictErr where
  | badOutcome
  | reasoningLen
  | reasoningNotComprehensive
  | finalStatementLen
  deriving DecidableEq

/-- The six component names scanned by
`Verdict.validate_reasoning_is_comprehensive` (`components.py` line 245). -/
def componentNames : List Str :=
  [strLit "data", strLit "claim", strLit "warrant", strLit "backing",
   strLit "rebuttal", strLit "qualifier"]

/-- `Verdict` model validation (`components.py` lines 222-252): outcome a
`VerdictOutcome` literal (`STANDS`, `FALLS`, `QUALIFIED`); reasoning between
100 and 2000 characters, stripped, and mentioning at least 3 of the six
component names (case-insensitive substring count); final statement between
20 and 300 characters.  This is the complete rule set of the model: no
status/reasoning lexical consistency check exists. -/
def validateVerdict (outcome reasoning finalStatement : Str) :
    Except VerdictErr VerdictC :=
  if outcome ∈ verdictOutcomes then
    if reasoning.length < 100 ∨ 2000 < reasoning.length then .error .reasoningLen
    else
      let v := pyStrip reasoning
      let mentioned := componentNames.countP fun comp => containsSub comp (pyLower v)
      if mentioned < 3 then .error .reasoningNotComprehensive
      else if finalStatement.length < 20 ∨ 300 < finalStatement.length then
        .error .finalStatementLen
      else .ok ⟨outcome, v, finalStatement⟩
  else .error .badOutcome

/-! ## `models/chain.py`: `ToulminChain` -/

/-- `ToulminChain` (`models/chain.py`): a query plus seven optional component
slots and two timestamps.  `datetime` values are opaque to every chain
operation, so they are modelled as plain naturals. -/
structure ToulminChain where
  query : Str
  data : Option DataC := none
  claim : Option ClaimC := none
  warrant : Option WarrantC := none
  backing : Option BackingC := none
  rebuttal : Option RebuttalC := none
  qualifier : Option QualifierC := none
  verdict : Option VerdictC := none
  created_at : Nat := 0
  completed_at : Option Nat := none
  deriving DecidableEq

/-- `ToulminChain.current_phase` (`chain.py` lines 40-59): a pure projection
of slot presence computed by a cascade of tests. -/
def currentPhase (c : ToulminChain) : Nat :=
  if c.verdict.isSome then 4
  else if c.qualifier.isSome && c.rebuttal.isSome then 3
  else if c.backing.isSome && c.warrant.isSome then 2
  else if c.claim.isSome && c.data.isSome then 1
  else 0

/-- `ToulminChain.is_complete` (`chain.py` lines 61-65). -/
def isComplete (c : ToulminChain) : Bool := c.verdict.isSome

/-- `ChainValidationError` payload: phase tag, message, suggestion
(`exceptions.py` lines 89-103). -/
structure ChainErr where
  phase : Str
  message : Str
  suggestion : Str
  deriving DecidableEq

/-- Error raised when a `Claim` is present without `Data`. -/
def claimDepErr : ChainErr :=
  ⟨strLit "claim", strLit "Cannot have Claim without Data",
   strLit "Complete Phase One (Data) first"⟩

/-- Error raised when a `Warrant` is present without `Claim`. -/
def warrantDepErr : ChainErr :=
  ⟨strLit "warrant", strLit "Cannot have Warrant without Claim",
   strLit "Complete Phase One (Data + Claim) first"⟩

/-- Error raised when a `Backing` is present without `Warrant`. -/
def backingDepErr : ChainErr :=
  ⟨strLit "backing", strLit "Cannot have Backing without Warrant",
   strLit "Complete Phase Two (Warrant) first"⟩

/-- Error raised when a `Rebuttal` is present without `Backing`. -/
def rebuttalDepErr : ChainErr :=
  ⟨strLit "rebuttal", strLit "Cannot have Rebuttal without Backing",
   strLit "Complete Phase Two (Warrant + Backing) first"⟩

/-- Error raised when a `Qualifier` is present without `Rebuttal`. -/
def qualifierDepErr : ChainErr :=
  ⟨strLit "qualifier", strLit "Cannot have Qualifier without Rebuttal",
   strLit "Complete Phase Three (Rebuttal) first"⟩

/-- The list of missing-prerequisite names assembled in the `Verdict` branch
of `validate_sequential_dependencies` (`chain.py` lines 112-126), in source
order. -/
def missingForVerdict (c : ToulminChain) : List Str :=
  (if c.data.isNone then [strLit "Data"] else []) ++
  (if c.claim.isNone then [strLit "Claim"] else []) ++
  (if c.warrant.isNone then [strLit "Warrant"] else []) ++
  (if c.backing.isNone then [strLit "Backing"] else []) ++
  (if c.rebuttal.isNone then [strLit "Rebuttal"] else []) ++
  (if c.qualifier.isNone then [strLit "Qualifier"] else [])

/-- Error raised when a `Verdict` is present with prerequisites missing. -/
def verdictDepErr (missing : List Str) : ChainErr :=
  ⟨strLit "verdict",
   strLit "Cannot render Verdict without: " ++ joinSep (strLit ", ") missing,
   strLit "Complete all prior phases first"⟩

/-- `ToulminChain.validate_sequential_dependencies` (`chain.py` lines
67-134): the five pairwise prerequisite checks in source order, then the
`Verdict` requires-everything check. -/
def validateSeqDeps (c : ToulminChain) : Except ChainErr Unit :=
  if c.claim.isSome && c.data.isNone then .error claimDepErr
  else if c.warrant.isSome && c.claim.isNone then .error warrantDepErr
  else if c.backing.isSome && c.warrant.isNone then .error backingDepErr
  else if c.rebuttal.isSome && c.backing.isNone then .error rebuttalDepErr
  else if c.qualifier.isSome && c.rebuttal.isNone then .error qualifierDepErr
  else if c.verdict.isSome && !(missingForVerdict c).isEmpty then
    .error (verdictDepErr (missingForVerdict c))
  else .ok ()

/-- Chain-level model validation: the `query` field constraint
(`min_length=10`) followed by the sequential-dependency model validator. -/
def validateChain (c : ToulminChain) : Except (Option ChainErr) Unit :=
  if c.query.length < 10 then .error none
  else (validateSeqDeps c).mapError some

/-! ### `to_markdown_table` (`chain.py` lines 136-179) -/

/-- The ellipsis appended by every truncation site. -/
def ell : Str := strLit "..."

/-- Truncation used for the DATA and REBUTTAL rows: join the first two items
with `"; "`, and when longer than 80 characters keep 77 and append `"..."`. -/
def truncJoined (items : List Str) : Str :=
  let joined := joinSep (strLit "; ") (items.take 2)
  if 80 < joined.length then joined.take 77 ++ ell else joined

/-- Truncation used for the CLAIM, WARRANT and BACKING rows: keep the first
80 characters, and when the field was longer than 80 append `"..."` (so the
cell may reach 83 characters). -/
def truncField (s : Str) : Str :=
  s.take 80 ++ (if 80 < s.length then ell else [])

/-- The DATA cell of `to_markdown_table`. -/
def dataCellOf (d : DataC) : Str := truncJoined d.facts

/-- The CLAIM cell of `to_markdown_table`. -/
def claimCellOf (cl : ClaimC) : Str := truncField cl.statement

/-- The WARRANT cell of `to_markdown_table`. -/
def warrantCellOf (w : WarrantC) : Str := truncField w.principle

/-- The truncated authority part of the BACKING cell of
`to_markdown_table` (the cell then appends `" [strength]"`). -/
def backingCellOf (b : BackingC) : Str := truncField b.authority

/-- The truncated edge-case part of the REBUTTAL cell of
`to_markdown_table` (the cell then appends `" [severity]"`). -/
def rebuttalCellOf (r : RebuttalC) : Str := truncJoined r.edge_cases

/-- `ToulminChain.to_markdown_table`: header rows plus one row per populated
slot, in slot order, with the truncations above. -/
def toMarkdownTable (c : ToulminChain) : Str :=
  let rows : List Str :=
    [strLit "| Component | Value |", strLit "|-----------|-------|"] ++
    (match c.data with
     | some d => [strLit "| **DATA** | " ++ dataCellOf d ++ strLit " |"]
     | none => []) ++
    (match c.claim with
     | some cl => [strLit "| **CLAIM** | " ++ claimCellOf cl ++ strLit " |"]
     | none => []) ++
    (match c.warrant with
     | some w => [strLit "| **WARRANT** | " ++ warrantCellOf w ++ strLit " |"]
     | none => []) ++
    (match c.backing with
     | some b => [strLit "| **BACKING** | " ++ backingCellOf b ++ strLit " [" ++
                  b.strength ++ strLit "] |"]
     | none => []) ++
    (match c.rebuttal with
     | some r => [strLit "| **REBUTTAL** | " ++ rebuttalCellOf r ++ strLit " [" ++
                  r.severity ++ strLit "] |"]
     | none => []) ++
    (match c.qualifier with
     | some q => [strLit "| **QUALIFIER** | " ++ q.degree ++ strLit " (" ++
                  strLit (toString q.confidence_pct) ++ strLit "%) |"]
     | none => []) ++
    (match c.verdict with
     | some v => [strLit "| **VERDICT** | " ++ v.outcome ++ strLit ": " ++
                  v.final_statement ++ strLit " |"]
     | none => [])
  joinSep (strLit "\n") rows

/-! ### `to_json_dict` (`chain.py` lines 181-200) -/

/-- JSON values, sufficient for the chain snapshot. -/
inductive Json where
  | null
  | str (s : Str)
  | num (n : Int)
  | boolean (b : Bool)
  | arr (xs : List Json)
  | obj (fields : List (Str × Json))

/-- `Citation.model_dump`. -/
def dumpCitation (c : Citation) : Json :=
  .obj [(strLit "source", .str c.source),
        (strLit "reference", .str c.reference),
        (strLit "url", match c.url with | none => .null | some u => .str u)]

/-- `Data.model_dump`. -/
def dumpData (d : DataC) : Json :=
  .obj [(strLit "facts", .arr (d.facts.map .str)),
        (strLit "citations", .arr (d.citations.map dumpCitation)),
        (strLit "evidence_type", .str d.evidence_type)]

/-- `Claim.model_dump`. -/
def dumpClaim (cl : ClaimC) : Json :=
  .obj [(strLit "statement", .str cl.statement), (strLit "scope", .str cl.scope)]

/-- `Warrant.model_dump`. -/
def dumpWarrant (w : WarrantC) : Json :=
  .obj [(strLit "principle", .str w.principle),
        (strLit "logic_type", .str w.logic_type)]

/-- `Backing.model_dump`. -/
def dumpBacking (b : BackingC) : Json :=
  .obj [(strLit "authority", .str b.authority),
        (strLit "citations", .arr (b.citations.map dumpCitation)),
        (strLit "strength", .str b.strength)]

/-- `Rebuttal.model_dump`. -/
def dumpRebuttal (r : RebuttalC) : Json :=
  .obj [(strLit "edge_cases", .arr (r.edge_cases.map .str)),
        (strLit "counterexamples", .arr (r.counterexamples.map .str)),
        (strLit "limitations", .str r.limitations),
        (strLit "severity", .str r.severity)]

/-- `Qualifier.model_dump`. -/
def dumpQualifier (q : QualifierC) : Json :=
  .obj [(strLit "degree", .str q.degree),
        (strLit "rationale", .str q.rationale),
        (strLit "confidence_pct", .num q.confidence_pct)]

/-- `Verdict.model_dump`. -/
def dumpVerdict (v : VerdictC) : Json :=
  .obj [(strLit "outcome", .str v.outcome),
        (strLit "reasoning", .str v.reasoning),
        (strLit "final_statement", .str v.final_statement)]

/-- `ToulminChain.to_json_dict` (`chain.py` lines 181-200): `query` and
`current_phase`, then one key per populated slot in slot order.  The
`created_at` / `completed_at` timestamps are not exported. -/
def toJsonDict (c : ToulminChain) : Json :=
  .obj ([(strLit "query", .str c.query),
         (strLit "current_phase", .num (currentPhase c))] ++
    (match c.data with | some d => [(strLit "data", dumpData d)] | none => []) ++
    (match c.claim with | some cl => [(strLit "claim", dumpClaim cl)] | none => []) ++
    (match c.warrant with | some w => [(strLit "warrant", dumpWarrant w)] | none => []) ++
    (match c.backing with | some b => [(strLit "backing", dumpBacking b)] | none => []) ++
    (match c.rebuttal with | some r => [(strLit "rebuttal", dumpRebuttal r)] | none => []) ++
    (match c.qualifier with | some q => [(strLit "qualifier", dumpQualifier q)] | none => []) ++
    (match c.verdict with | some v => [(strLit "verdict", dumpVerdict v)] | none => []))

/-! ## `config.py`: environment-driven configuration -/

/-- The falsy spellings of `_get_env_bool` (`config.py` line 35). -/
def falsyValues : List Str :=
  [strLit "0", strLit "false", strLit "no", strLit "off"]

/-- `_get_env_bool` (`config.py` lines 19-35): `none` models an unset
variable; a set value is stripped, lower-cased, and is `False` exactly when
it lands in `falsyValues`. -/
def getEnvBool (raw : Option Str) (dflt : Bool) : Bool :=
  match raw with
  | none => dflt
  | some v => !(falsyValues.contains (pyLower (pyStrip v)))

/-- The resolved policy flags of `Config` (`config.py` lines 75-113) that
matter to the circuit breakers.  `get_config` fills them from the
environment with defaults `strict_mode=True`, `fail_on_weak_warrant=True`,
`fail_on_weak_backing=True`. -/
structure Config where
  strict_mode : Bool := true
  fail_on_weak_warrant : Bool := true
  fail_on_weak_backing : Bool := true
  deriving DecidableEq

/-- `get_config` restricted to the breaker flags: each flag is parsed by
`_get_env_bool` from its environment variable. -/
def getConfigFlags (strictEnv failWarrantEnv failBackingEnv : Option Str) : Config :=
  ⟨getEnvBool strictEnv true, getEnvBool failWarrantEnv true,
   getEnvBool failBackingEnv true⟩

/-! ## `server.py`: `_validate_logic_bridge` (lines 253-275)

The helper does, in order:
1. `Warrant.model_validate_json(warrant_json)` — pydantic validation; a
   failure is a `ValidationError`, which subclasses `ValueError`, so it is
   caught by the `except ValueError` arm and reported as
   `{"error": "TERMINATION_SIGNAL"}`.
2. `warrant.logic_check()` — the `Warrant` model defines no method named
   `logic_check`, so for every structurally valid warrant Python raises
   `AttributeError`, which only the generic `except Exception` arm catches,
   producing `{"error": "VALIDATION_ERROR"}`.  Execution therefore never
   reaches step 3 with a valid warrant.
3. `Backing.model_validate_json(backing_json)` (unreachable when the warrant
   is valid) — would raise `WeakBackingError` (a `ToulminiError`, not a
   `ValueError`) for `strength == "weak"`, also landing in the generic arm.

Nothing in this path, nor anywhere in the validation code, reads
`get_config()`: the `strict_mode` / `fail_on_weak_warrant` /
`fail_on_weak_backing` flags are consulted only by `cli.py` rendering. -/

/-- Outcome of `_validate_logic_bridge`: `pass` models returning `None`;
the two error constructors model the two JSON error envelopes. -/
inductive BridgeOutcome where
  | pass
  | terminationSignal (warrantShapeErr : WarrantErr)
  | validationError (reason : Str)
  deriving DecidableEq

/-- The `AttributeError` message produced by step 2 above. -/
def logicCheckAttrMsg : Str :=
  strLit "'Warrant' object has no attribute 'logic_check'"

/-- `_validate_logic_bridge` (`server.py` lines 253-275), faithful to the
control flow described above.  The backing payload is accepted as an
argument but can only influence the result when the warrant itself fails
pydantic validation first. -/
def validateLogicBridge (w : WarrantPayload) (_backing : BackingPayload) : BridgeOutcome :=
  match validateWarrant w with
  | .error we => .terminationSignal we
  | .ok _ => .validationError logicCheckAttrMsg

/-! ## Concrete inputs used across the development -/

/-- A well-formed citation. -/
def sampleCitation : Citation :=
  ⟨strLit "AI Safety Institute", strLit "2024 Report", none⟩

/-- A well-formed facts list (each fact at least 10 characters stripped). -/
def sampleFacts : List Str := [strLit "AI models can generate harmful content."]

/-- The validated `Data` record produced from `sampleFacts`. -/
def sampleDataC : DataC := ⟨sampleFacts, [sampleCitation], strLit "empirical"⟩

/-- A well-formed claim statement. -/
def sampleStatement : Str := strLit "AI requires regulatory oversight today."

/-- The validated `Claim` record produced from `sampleStatement`. -/
def sampleClaimC : ClaimC := ⟨sampleStatement, strLit "general"⟩

/-- A structurally valid warrant payload carrying `strength = "strong"`. -/
def strongWarrantPayload : WarrantPayload :=
  ⟨strLit "If a technology poses public risk, it requires oversight.",
   strLit "deductive", some (strLit "strong")⟩

/-- The validated `Warrant` record produced from `strongWarrantPayload`. -/
def sampleWarrantC : WarrantC :=
  ⟨strLit "If a technology poses public risk, it requires oversight.",
   strLit "deductive"⟩

/-- A structurally valid warrant payload carrying `strength = "weak"` (the
principle text is the one used by the repository's own
`tests/test_models.py`). -/
def weakWarrantPayload : WarrantPayload :=
  ⟨strLit "If X then Y principle logic that is long enough.",
   strLit "deductive", some (strLit "weak")⟩

/-- A structurally valid backing payload with `strength = "strong"`. -/
def strongBackingPayload : BackingPayload :=
  ⟨strLit "Peer reviewed studies and statutory authority.",
   [sampleCitation], strLit "strong"⟩

/-- The same backing payload with `strength = "weak"`. -/
def weakBackingPayload : BackingPayload :=
  ⟨strLit "Peer reviewed studies and statutory authority.",
   [sampleCitation], strLit "weak"⟩

/-! ## Claims -/

/-- C1.  The claim says: a Warrant or Backing whose strength is `weak` or
`irrelevant`, under `strict_mode=true` with the matching fail-flag on,
always produces a circuit-breaker rejection (`TERMINATION_SIGNAL` kind)
naming the offending component and its strength value.  The code disagrees:
`_validate_logic_bridge` calls the nonexistent method
`Warrant.logic_check`, so a structurally valid weak warrant — and likewise a
weak backing behind a valid warrant — ends as the generic
`{"error": "VALIDATION_ERROR"}` envelope whose reason is the
`AttributeError` text, naming neither the component policy nor any strength,
and no code path consults the configuration flags at all. -/
theorem breaker_weak_strength_yields_validation_error_not_termination :
    validateLogicBridge weakWarrantPayload strongBackingPayload =
      .validationError logicCheckAttrMsg ∧
    validateLogicBridge strongWarrantPayload weakBackingPayload =
      .validationError logicCheckAttrMsg ∧
    ∀ we : WarrantErr,
      validateLogicBridge weakWarrantPayload strongBackingPayload ≠
        .terminationSignal we := by
  refine ⟨by decide, by decide, ?_⟩
  intro we h
  have h' : BridgeOutcome.validationError logicCheckAttrMsg =
      BridgeOutcome.terminationSignal we := by
    have hb : validateLogicBridge weakWarrantPayload strongBackingPayload =
        .validationError logicCheckAttrMsg := by decide
    rw [hb] at h
    exact h
  exact BridgeOutcome.noConfusion h'

/-- C2.  The claim says: with `strict_mode=false` every weak/irrelevant
Warrant or Backing payload is accepted and the chain advances, whatever the
fail-flags say.  The code disagrees: no validation code path reads the
configuration (only `cli.py` does), `Backing.reject_weak_backing` raises
`WeakBackingError` for every weak backing unconditionally at model
construction, and the logic bridge errors on every weak-warrant payload, so
under any flag assignment the weak payloads are rejected rather than
accepted. -/
theorem strict_mode_off_weak_payloads_still_rejected :
    ∀ _cfg : Config,
      validateBacking weakBackingPayload = .error .weakBacking ∧
      validateLogicBridge weakWarrantPayload weakBackingPayload ≠ .pass := by
  intro _cfg
  exact ⟨rfl, by decide⟩

/-- C3.  A Rebuttal whose strength (`severity` in the model) is `"absolute"`
is always rejected by validation, independent of every policy flag:
`"absolute"` is not a member of the `RebuttalSeverity` literal
(`fatal`/`significant`/`minor`/`negligible`), and the severity check of
`validateRebuttal` consults no configuration. -/
theorem rebuttal_absolute_severity_always_rejected
    (p : RebuttalPayload) (h : p.severity = strLit "absolute") :
    isOkE (validateRebuttal p) = false := by
  unfold validateRebuttal
  split
  · rfl
  · cases hv : validateEdgeCasesFrom 0 p.edge_cases with
    | error e => simp [hv, isOkE]
    | ok cs =>
      simp only [hv]
      split
      · rfl
      · rw [h, if_neg (by decide)]
        rfl

/-- Witness for C3: a concrete, otherwise well-formed rebuttal payload with
severity `"absolute"` is rejected. -/
theorem rebuttal_absolute_severity_always_rejected_witness :
    isOkE (validateRebuttal
      ⟨[strLit "If the premise fails, the warrant does not hold."], [],
       strLit "These limitations are well documented.",
       strLit "absolute"⟩) = false :=
  rebuttal_absolute_severity_always_rejected
    ⟨[strLit "If the premise fails, the warrant does not hold."], [],
     strLit "These limitations are well documented.",
     strLit "absolute"⟩ rfl

/-- The six sequential-dependency invariants of the chain, as the spec
states them. -/
def seqDepsInvariant (c : ToulminChain) : Prop :=
  (c.claim.isSome = true → c.data.isSome = true) ∧
  (c.warrant.isSome = true → c.claim.isSome = true) ∧
  (c.backing.isSome = true → c.warrant.isSome = true) ∧
  (c.rebuttal.isSome = true → c.backing.isSome = true) ∧
  (c.qualifier.isSome = true → c.rebuttal.isSome = true) ∧
  (c.verdict.isSome = true →
    c.data.isSome = true ∧ c.claim.isSome = true ∧ c.warrant.isSome = true ∧
    c.backing.isSome = true ∧ c.rebuttal.isSome = true ∧ c.qualifier.isSome = true)

/-- `n` is the name of a chain slot that is empty in `c`. -/
def slotAbsentFor (c : ToulminChain) (n : Str) : Prop :=
  (n = strLit "Data" ∧ c.data = none) ∨
  (n = strLit "Claim" ∧ c.claim = none) ∨
  (n = strLit "Warrant" ∧ c.warrant = none) ∨
  (n = strLit "Backing" ∧ c.backing = none) ∨
  (n = strLit "Rebuttal" ∧ c.rebuttal = none) ∨
  (n = strLit "Qualifier" ∧ c.qualifier = none)

/-- A dependency error names its missing prerequisite(s): it is one of the
five fixed pairwise errors (whose message text names the absent
prerequisite) fired in its own violation state, or the verdict error whose
message lists `missingForVerdict c`, every entry of which names an absent
slot. -/
def depErrNamesMissing (c : ToulminChain) (e : ChainErr) : Prop :=
  (e = claimDepErr ∧ c.claim.isSome = true ∧ c.data = none) ∨
  (e = warrantDepErr ∧ c.warrant.isSome = true ∧ c.claim = none) ∨
  (e = backingDepErr ∧ c.backing.isSome = true ∧ c.warrant = none) ∨
  (e = rebuttalDepErr ∧ c.rebuttal.isSome = true ∧ c.backing = none) ∨
  (e = qualifierDepErr ∧ c.qualifier.isSome = true ∧ c.rebuttal = none) ∨
  (e = verdictDepErr (missingForVerdict c) ∧ c.verdict.isSome = true ∧
    missingForVerdict c ≠ [] ∧ ∀ n ∈ missingForVerdict c, slotAbsentFor c n)

/-- `missingForVerdict` is empty exactly when all six prior slots are
populated. -/
lemma missingForVerdict_eq_nil_iff (c : ToulminChain) :
    missingForVerdict c = [] ↔
      (c.data.isSome = true ∧ c.claim.isSome = true ∧ c.warrant.isSome = true ∧
       c.backing.isSome = true ∧ c.rebuttal.isSome = true ∧
       c.qualifier.isSome = true) := by
  cases hd : c.data <;> cases hc : c.claim <;> cases hw : c.warrant <;>
    cases hb : c.backing <;> cases hr : c.rebuttal <;> cases hq : c.qualifier <;>
      simp [missingForVerdict, hd, hc, hw, hb, hr, hq]

/-- Every entry of `missingForVerdict c` names a slot that is empty in `c`. -/
lemma mem_missingForVerdict (c : ToulminChain) (n : Str)
    (hn : n ∈ missingForVerdict c) : slotAbsentFor c n := by
  cases hd : c.data <;> cases hc : c.claim <;> cases hw : c.warrant <;>
    cases hb : c.backing <;> cases hr : c.rebuttal <;> cases hq : c.qualifier <;>
      simp only [missingForVerdict, hd, hc, hw, hb, hr, hq, Option.isNone_none,
        Option.isNone_some, if_true, if_false, List.append_nil, List.nil_append,
        List.mem_append, List.mem_singleton, List.not_mem_nil, or_false,
        false_or, ite_true, ite_false] at hn <;>
      simp_all [slotAbsentFor, hd, hc, hw, hb, hr, hq] <;> tauto

/-- C4.  `validate_sequential_dependencies` accepts a chain exactly when the
six sequential-dependency invariants hold, and whenever it rejects, the
structured `ChainValidationError` it raises is one of the dependency errors
naming the missing prerequisite(s) of an actually violated slot — never a
partial success. -/
theorem seq_deps_ok_iff_invariants_and_errors_name_missing (c : ToulminChain) :
    (validateSeqDeps c = .ok () ↔ seqDepsInvariant c) ∧
    (∀ e, validateSeqDeps c = .error e → depErrNamesMissing c e) := by
  unfold validateSeqDeps
  split_ifs with h1 h2 h3 h4 h5 h6
  · rw [Bool.and_eq_true, Option.isNone_iff_eq_none] at h1
    refine ⟨⟨fun h => by exact absurd h (by simp), ?_⟩, ?_⟩
    · intro hinv
      exact absurd (hinv.1 h1.1) (by simp [h1.2])
    · intro e he
      injection he with he
      exact .inl ⟨he.symm, h1.1, h1.2⟩
  · rw [Bool.and_eq_true, Option.isNone_iff_eq_none] at h2
    refine ⟨⟨fun h => by exact absurd h (by simp), ?_⟩, ?_⟩
    · intro hinv
      exact absurd (hinv.2.1 h2.1) (by simp [h2.2])
    · intro e he
      injection he with he
      exact .inr (.inl ⟨he.symm, h2.1, h2.2⟩)
  · rw [Bool.and_eq_true, Option.isNone_iff_eq_none] at h3
    refine ⟨⟨fun h => by exact absurd h (by simp), ?_⟩, ?_⟩
    · intro hinv
      exact absurd (hinv.2.2.1 h3.1) (by simp [h3.2])
    · intro e he
      injection he with he
      exact .inr (.inr (.inl ⟨he.symm, h3.1, h3.2⟩))
  · rw [Bool.and_eq_true, Option.isNone_iff_eq_none] at h4
    refine ⟨⟨fun h => by exact absurd h (by simp), ?_⟩, ?_⟩
    · intro hinv
      exact absurd (hinv.2.2.2.1 h4.1) (by simp [h4.2])
    · intro e he
      injection he with he
      exact .inr (.inr (.inr (.inl ⟨he.symm, h4.1, h4.2⟩)))
  · rw [Bool.and_eq_true, Option.isNone_iff_eq_none] at h5
    refine ⟨⟨fun h => by exact absurd h (by simp), ?_⟩, ?_⟩
    · intro hinv
      exact absurd (hinv.2.2.2.2.1 h5.1) (by simp [h5.2])
    · intro e he
      injection he with he
      exact .inr (.inr (.inr (.inr (.inl ⟨he.symm, h5.1, h5.2⟩))))
  · rw [Bool.and_eq_true] at h6
    have hne : missingForVerdict c ≠ [] := by
      intro hnil
      rw [hnil] at h6
      simp at h6
    refine ⟨⟨fun h => by exact absurd h (by simp), ?_⟩, ?_⟩
    · intro hinv
      have hall := hinv.2.2.2.2.2 h6.1
      exact hne ((missingForVerdict_eq_nil_iff c).mpr hall)
    · intro e he
      injection he with he
      exact .inr (.inr (.inr (.inr (.inr
        ⟨he.symm, h6.1, hne, fun n hn => mem_missingForVerdict c n hn⟩))))
  · refine ⟨⟨fun _ => ?_, fun _ => rfl⟩, fun e he => by exact absurd he (by simp)⟩
    have inv1 : c.claim.isSome = true → c.data.isSome = true := by
      intro hcl
      rcases hd : c.data with _ | d
      · exact absurd (by simp [hcl, hd]) h1
      · rfl
    have inv2 : c.warrant.isSome = true → c.claim.isSome = true := by
      intro hw
      rcases hc : c.claim with _ | cl
      · exact absurd (by simp [hw, hc]) h2
      · rfl
    have inv3 : c.backing.isSome = true → c.warrant.isSome = true := by
      intro hb
      rcases hw : c.warrant with _ | w
      · exact absurd (by simp [hb, hw]) h3
      · rfl
    have inv4 : c.rebuttal.isSome = true → c.backing.isSome = true := by
      intro hr
      rcases hb : c.backing with _ | b
      · exact absurd (by simp [hr, hb]) h4
      · rfl
    have inv5 : c.qualifier.isSome = true → c.rebuttal.isSome = true := by
      intro hq
      rcases hr : c.rebuttal with _ | r
      · exact absurd (by simp [hq, hr]) h5
      · rfl
    have inv6 : c.verdict.isSome = true →
        c.data.isSome = true ∧ c.claim.isSome = true ∧ c.warrant.isSome = true ∧
        c.backing.isSome = true ∧ c.rebuttal.isSome = true ∧
        c.qualifier.isSome = true := by
      intro hv
      apply (missingForVerdict_eq_nil_iff c).mp
      by_contra hne
      exact h6 (by simp [hv, List.isEmpty_iff, hne])
    exact ⟨inv1, inv2, inv3, inv4, inv5, inv6⟩

/-- A chain with a `Claim` but no `Data`, used to exercise the dependency
error path. -/
def chainClaimOnly : ToulminChain :=
  { query := strLit "Should AI be regulated?", claim := some sampleClaimC }

/-- Witness for C4: on the concrete chain holding only a Claim, validation
rejects with the structured error that names the missing `Data`
prerequisite. -/
theorem seq_deps_ok_iff_invariants_witness :
    depErrNamesMissing chainClaimOnly claimDepErr :=
  (seq_deps_ok_iff_invariants_and_errors_name_missing chainClaimOnly).2
    claimDepErr rfl

/-- A constructible chain holding Data, Claim and Warrant but no Backing
yet (legal: no dependency requires a Warrant to come with its Backing). -/
def chainPhase1Warrant : ToulminChain :=
  { query := strLit "Should AI be regulated?",
    data := some sampleDataC, claim := some sampleClaimC,
    warrant := some sampleWarrantC }

/-- C5 counterexample.  The claim states `phase = 1` iff Data and Claim are
present *and Warrant absent*.  The chain below is built from
validator-accepted components, passes the sequential-dependency validator,
has its Warrant slot populated — and still computes `current_phase = 1`,
because the code only tests whether each phase *pair* is complete, not
whether the next phase has started. -/
theorem phase_one_despite_warrant_present :
    validateData sampleFacts [sampleCitation] (strLit "empirical") = .ok sampleDataC ∧
    validateClaim sampleStatement (strLit "general") = .ok sampleClaimC ∧
    validateWarrant strongWarrantPayload = .ok sampleWarrantC ∧
    validateSeqDeps chainPhase1Warrant = .ok () ∧
    chainPhase1Warrant.warrant.isSome = true ∧
    currentPhase chainPhase1Warrant = 1 :=
  ⟨rfl, rfl, rfl, rfl, rfl, rfl⟩

/-- C5 as amended.  `current_phase` is 4 iff Verdict is present; 3 iff
Verdict is absent and both Rebuttal and Qualifier are present; 2 iff
additionally not both Rebuttal and Qualifier are present but Warrant and
Backing are; 1 iff none of the above but Data and Claim are present — the
presence of a *later* unpaired component (e.g. a Warrant without Backing, or
a Rebuttal without Qualifier) does not change the phase.  `is_complete`
holds exactly when the phase is 4, i.e. when Verdict is present. -/
theorem current_phase_characterization (c : ToulminChain) :
    (currentPhase c = 4 ↔ c.verdict.isSome = true) ∧
    (currentPhase c = 3 ↔
      (c.verdict = none ∧ c.qualifier.isSome = true ∧ c.rebuttal.isSome = true)) ∧
    (currentPhase c = 2 ↔
      (c.verdict = none ∧ ¬(c.qualifier.isSome = true ∧ c.rebuttal.isSome = true) ∧
       c.backing.isSome = true ∧ c.warrant.isSome = true)) ∧
    (currentPhase c = 1 ↔
      (c.verdict = none ∧ ¬(c.qualifier.isSome = true ∧ c.rebuttal.isSome = true) ∧
       ¬(c.backing.isSome = true ∧ c.warrant.isSome = true) ∧
       c.claim.isSome = true ∧ c.data.isSome = true)) ∧
    (isComplete c = true ↔ c.verdict.isSome = true) ∧
    (isComplete c = true ↔ currentPhase c = 4) := by
  obtain ⟨q, d, cl, w, b, r, qu, v, ca, co⟩ := c
  cases d <;> cases cl <;> cases w <;> cases b <;> cases r <;> cases qu <;>
    cases v <;> simp [currentPhase, isComplete]

/-- A verdict reasoning that sustains the claim while containing the
opposite-outcome word `"rejected"`; it is over 100 characters long and
mentions three component names (`data`, `claim`, `warrant`). -/
def standsRejectedReasoning : Str :=
  strLit "The data is solid, the claim follows from the warrant, and the single counterexample offered was rejected on review."

/-- The validated record `validateVerdict` produces from
`standsRejectedReasoning` under outcome `STANDS`. -/
def standsRejectedVerdict : VerdictC :=
  ⟨strLit "STANDS", standsRejectedReasoning,
   strLit "The claim stands as originally argued."⟩

/-- C6.  The claim says `Verdict` validation applies a case-insensitive
lexical consistency check between status and reasoning, rejecting in
particular a sustained verdict whose reasoning contains `"rejected"`.  The
code has no such check: the `Verdict` model's only reasoning rule is the
at-least-3-component-mentions count (and the length bounds), so the
sustaining outcome `"STANDS"` with a reasoning containing `"rejected"`
passes validation — contradicting the claim and the repository's own
`tests/test_models.py::test_verdict_consistency` (which also expects a
`status` field with values `sustained`/`overruled` that the model, whose
field is `outcome` with values `STANDS`/`FALLS`/`QUALIFIED`, does not
declare). -/
theorem verdict_stands_with_rejected_reasoning_accepted :
    validateVerdict (strLit "STANDS") standsRejectedReasoning
      (strLit "The claim stands as originally argued.") = .ok standsRejectedVerdict ∧
    containsSub (strLit "rejected") (pyLower standsRejectedReasoning) = true :=
  ⟨rfl, by decide⟩

/-- A facts list containing a fact whose trimmed form is too short can never
pass `validate_facts_not_empty`, from any starting index. -/
lemma validateFactsFrom_mem_short (facts : List Str) :
    ∀ (i : Nat) (f : Str), f ∈ facts → (pyStrip f).length < 10 →
      isOkE (validateFactsFrom i facts) = false := by
  induction facts with
  | nil => intro i f hf _; cases hf
  | cons g rest ih =>
    intro i f hf hs
    simp only [validateFactsFrom]
    by_cases hg : (pyStrip g).length < 10
    · rw [if_pos hg]; rfl
    · rw [if_neg hg]
      have hfr : f ∈ rest := by
        rcases List.mem_cons.mp hf with rfl | hfr
        · exact absurd hs hg
        · exact hfr
      have hrec := ih (i + 1) f hfr hs
      cases hv : validateFactsFrom (i + 1) rest with
      | error e => rfl
      | ok rest' => rw [hv] at hrec; exact absurd hrec (by simp [isOkE])

/-- An edge-case list containing an item whose trimmed form is too short or
carries no conditional marker can never pass
`validate_edge_cases_are_conditional`, from any starting index. -/
lemma validateEdgeCasesFrom_mem_bad (cases : List Str) :
    ∀ (i : Nat) (c : Str), c ∈ cases →
      ((pyStrip c).length < 15 ∨ hasCondMarker (pyStrip c) = false) →
      isOkE (validateEdgeCasesFrom i cases) = false := by
  induction cases with
  | nil => intro i c hc _; cases hc
  | cons g rest ih =>
    intro i c hc hbad
    simp only [validateEdgeCasesFrom]
    by_cases hg1 : (pyStrip g).length < 15
    · rw [if_pos hg1]; rfl
    · rw [if_neg hg1]
      by_cases hg2 : hasCondMarker (pyStrip g) = false
      · rw [if_pos (by simp [hg2])]; rfl
      · rw [if_neg (by simp at hg2 ⊢; exact hg2)]
        have hcr : c ∈ rest := by
          rcases List.mem_cons.mp hc with rfl | hcr
          · rcases hbad with hb | hb
            · exact absurd hb hg1
            · exact absurd hb hg2
          · exact hcr
        have hrec := ih (i + 1) c hcr hbad
        cases hv : validateEdgeCasesFrom (i + 1) rest with
        | error e => rfl
        | ok rest' => rw [hv] at hrec; exact absurd hrec (by simp [isOkE])

/-- Soundness of the index reported by the no-conditional-marker rejection:
whenever `validate_edge_cases_are_conditional` fails naming item `k`, the
`k`-th (1-based, counted from starting index `i`) edge case indeed lacks
every conditional marker. -/
lemma validateEdgeCasesFrom_notCond_sound (cases : List Str) :
    ∀ (i k : Nat),
      validateEdgeCasesFrom i cases = .error (.edgeNotConditional k) →
      ∃ j, ∃ h : j < cases.length, i + j + 1 = k ∧
        hasCondMarker (pyStrip (cases.get ⟨j, h⟩)) = false := by
  induction cases with
  | nil => intro i k h; exact absurd h (by simp [validateEdgeCasesFrom])
  | cons g rest ih =>
    intro i k h
    simp only [validateEdgeCasesFrom] at h
    by_cases hg1 : (pyStrip g).length < 15
    · rw [if_pos hg1] at h
      injection h with h
      exact absurd h (by simp)
    · rw [if_neg hg1] at h
      by_cases hg2 : hasCondMarker (pyStrip g) = false
      · rw [if_pos (by simp [hg2])] at h
        injection h with h
        injection h with h
        exact ⟨0, by simp, by omega, hg2⟩
      · rw [if_neg (by simp at hg2 ⊢; exact hg2)] at h
        cases hv : validateEdgeCasesFrom (i + 1) rest with
        | error e =>
          rw [hv] at h
          injection h with h
          obtain ⟨j', h', hk, hm⟩ := ih (i + 1) k (by rw [hv, h])
          exact ⟨j' + 1, by simpa using Nat.succ_lt_succ h', by omega, by simpa using hm⟩
        | ok rest' => rw [hv] at h; exact absurd h (by simp)

/-- C7.  The per-item minimum lengths for `Data` facts (10) and `Rebuttal`
edge cases (15) are applied to the *trimmed* string, and every edge case
must contain one of exactly the eight conditional markers as a
case-insensitive substring; a markerless edge case always fails validation,
and the no-marker rejection names an item that is genuinely offending. -/
theorem trimmed_minima_and_conditional_markers :
    (conditionalWords =
      [strLit "if", strLit "when", strLit "unless", strLit "except",
       strLit "in case", strLit "should", strLit "were", strLit "would"]) ∧
    (∀ (facts : List Str) (cites : List Citation) (etype : Str) (f : Str),
      f ∈ facts → (pyStrip f).length < 10 →
      isOkE (validateData facts cites etype) = false) ∧
    (∀ (p : RebuttalPayload) (c : Str), c ∈ p.edge_cases →
      (pyStrip c).length < 15 → isOkE (validateRebuttal p) = false) ∧
    (∀ (p : RebuttalPayload) (c : Str), c ∈ p.edge_cases →
      hasCondMarker (pyStrip c) = false → isOkE (validateRebuttal p) = false) ∧
    (∀ (cases : List Str) (k : Nat),
      validateEdgeCasesFrom 0 cases = .error (.edgeNotConditional k) →
      ∃ j, ∃ h : j < cases.length, j + 1 = k ∧
        hasCondMarker (pyStrip (cases.get ⟨j, h⟩)) = false) := by
  refine ⟨rfl, ?_, ?_, ?_, ?_⟩
  · intro facts cites etype f hf hs
    simp only [validateData]
    have hne : ¬(facts.length < 1) := by
      cases facts
      · cases hf
      · simp
    rw [if_neg hne]
    have hrec := validateFactsFrom_mem_short facts 0 f hf hs
    cases hv : validateFactsFrom 0 facts with
    | error e => rfl
    | ok fs => rw [hv] at hrec; exact absurd hrec (by simp [isOkE])
  · intro p c hc hs
    simp only [validateRebuttal]
    have hne : ¬(p.edge_cases.length < 1) := by
      cases he : p.edge_cases
      · rw [he] at hc; cases hc
      · simp [he]
    rw [if_neg hne]
    have hrec := validateEdgeCasesFrom_mem_bad p.edge_cases 0 c hc (.inl hs)
    cases hv : validateEdgeCasesFrom 0 p.edge_cases with
    | error e => rfl
    | ok cs => rw [hv] at hrec; exact absurd hrec (by simp [isOkE])
  · intro p c hc hm
    simp only [validateRebuttal]
    have hne : ¬(p.edge_cases.length < 1) := by
      cases he : p.edge_cases
      · rw [he] at hc; cases hc
      · simp [he]
    rw [if_neg hne]
    have hrec := validateEdgeCasesFrom_mem_bad p.edge_cases 0 c hc (.inr hm)
    cases hv : validateEdgeCasesFrom 0 p.edge_cases with
    | error e => rfl
    | ok cs => rw [hv] at hrec; exact absurd hrec (by simp [isOkE])
  · intro cases k h
    obtain ⟨j, hj, hk, hm⟩ := validateEdgeCasesFrom_notCond_sound cases 0 k h
    exact ⟨j, hj, by omega, hm⟩

/-- Witness for C7: a fact that is long enough raw but too short trimmed is
rejected, and a long-enough edge case with no conditional marker is
rejected. -/
theorem trimmed_minima_and_conditional_markers_witness :
    isOkE (validateData [strLit "   short    "] [sampleCitation]
      (strLit "empirical")) = false ∧
    isOkE (validateRebuttal
      ⟨[strLit "This statement has no marker words at all."], [],
       strLit "These limitations are well documented.",
       strLit "minor"⟩) = false :=
  ⟨trimmed_minima_and_conditional_markers.2.1 [strLit "   short    "]
      [sampleCitation] (strLit "empirical") (strLit "   short    ")
      (by decide) (by decide),
   trimmed_minima_and_conditional_markers.2.2.2.1
      ⟨[strLit "This statement has no marker words at all."], [],
       strLit "These limitations are well documented.",
       strLit "minor"⟩
      (strLit "This statement has no marker words at all.")
      (by decide) (by decide)⟩

/-- C8.  `to_json_dict` is a pure function of the query and the seven
component slots: two chains agreeing on those — even with different
`created_at` / `completed_at` timestamps — export identical snapshots, so
calling the export twice on the same chain value trivially yields identical
output. -/
theorem to_json_dict_depends_only_on_slots (c₁ c₂ : ToulminChain)
    (hq : c₁.query = c₂.query) (hd : c₁.data = c₂.data)
    (hc : c₁.claim = c₂.claim) (hw : c₁.warrant = c₂.warrant)
    (hb : c₁.backing = c₂.backing) (hr : c₁.rebuttal = c₂.rebuttal)
    (hqu : c₁.qualifier = c₂.qualifier) (hv : c₁.verdict = c₂.verdict) :
    toJsonDict c₁ = toJsonDict c₂ := by
  obtain ⟨q1, d1, cl1, w1, b1, r1, qu1, v1, ca1, co1⟩ := c₁
  obtain ⟨q2, d2, cl2, w2, b2, r2, qu2, v2, ca2, co2⟩ := c₂
  dsimp only at hq hd hc hw hb hr hqu hv
  subst hq hd hc hw hb hr hqu hv
  rfl

/-- A partially filled chain with one timestamp pair. -/
def chainExportA : ToulminChain :=
  { query := strLit "Should AI be regulated?",
    data := some sampleDataC, claim := some sampleClaimC,
    created_at := 0, completed_at := none }

/-- The same populated slots with different timestamps. -/
def chainExportB : ToulminChain :=
  { query := strLit "Should AI be regulated?",
    data := some sampleDataC, claim := some sampleClaimC,
    created_at := 1, completed_at := some 5 }

/-- Witness for C8: the two concrete chains above differ only in their
timestamps and export the same snapshot. -/
theorem to_json_dict_depends_only_on_slots_witness :
    toJsonDict chainExportA = toJsonDict chainExportB :=
  to_json_dict_depends_only_on_slots chainExportA chainExportB
    rfl rfl rfl rfl rfl rfl rfl rfl

/-- A 100-character claim statement. -/
def longStatement : Str :=
  strLit "Artificial intelligence systems deployed at scale require continuous regulatory oversight and audit."

/-- The validated `Claim` record carrying `longStatement`. -/
def longClaimC : ClaimC := ⟨longStatement, strLit "general"⟩

/-- A constructible chain whose CLAIM row must truncate. -/
def chainLongClaim : ToulminChain :=
  { query := strLit "Should AI be regulated?",
    data := some sampleDataC, claim := some longClaimC }

/-- C9 counterexample.  The claim states no rendered free-text cell exceeds
80 characters.  For the CLAIM, WARRANT and BACKING rows the code keeps the
first 80 characters and *appends* `"..."`, so a 100-character validated
claim statement renders as an 83-character cell inside the Markdown
table. -/
theorem claim_cell_exceeds_80_chars :
    validateClaim longStatement (strLit "general") = .ok longClaimC ∧
    validateSeqDeps chainLongClaim = .ok () ∧
    claimCellOf longClaimC = longStatement.take 80 ++ ell ∧
    (claimCellOf longClaimC).length = 83 ∧
    containsSub (claimCellOf longClaimC) (toMarkdownTable chainLongClaim) = true :=
  ⟨rfl, rfl, rfl, by decide, by decide⟩

/-- Length and ellipsis behaviour of the `[:77] + "..."` truncation. -/
lemma truncJoined_spec (items : List Str) :
    (truncJoined items).length ≤ 80 ∧
    (80 < (joinSep (strLit "; ") (items.take 2)).length →
      truncJoined items =
        (joinSep (strLit "; ") (items.take 2)).take 77 ++ ell) := by
  constructor
  · simp only [truncJoined]
    split
    · simp only [List.length_append, List.length_take, ell, strLit, String.toList,
        List.length_cons, List.length_nil]
      have := Nat.min_le_left 77 (joinSep (strLit "; ") (items.take 2)).length
      omega
    · omega
  · intro hlong
    simp only [truncJoined]
    rw [if_pos hlong]

/-- Length and ellipsis behaviour of the `[:80]` + appended `"..."`
truncation. -/
lemma truncField_spec (s : Str) :
    (truncField s).length ≤ 83 ∧
    (s.length ≤ 80 → truncField s = s) ∧
    (80 < s.length →
      truncField s = s.take 80 ++ ell ∧ (truncField s).length = 83) := by
  refine ⟨?_, ?_, ?_⟩
  · unfold truncField
    split
    · simp only [List.length_append, List.length_take, ell, strLit, String.toList,
        List.length_cons, List.length_nil]
      have := Nat.min_le_left 80 s.length
      omega
    · simp only [List.length_append, List.length_take, List.length_nil]
      have := Nat.min_le_left 80 s.length
      omega
  · intro hshort
    unfold truncField
    rw [if_neg (by omega), List.append_nil, List.take_of_length_le hshort]
  · intro hlong
    constructor
    · unfold truncField
      rw [if_pos hlong]
    · unfold truncField
      rw [if_pos hlong]
      simp only [List.length_append, List.length_take, ell, strLit, String.toList,
        List.length_cons, List.length_nil]
      omega

/-- C9 as amended.  In `to_markdown_table` the DATA and REBUTTAL cells (the
`"; "`-joined first two items) are cut to 77 characters plus an ellipsis and
never exceed 80; the CLAIM, WARRANT and BACKING free-text cells keep their
first 80 characters and append an ellipsis when the field is longer,
yielding up to 83 characters; every truncated value ends with the
ellipsis. -/
theorem markdown_truncation_bounds (d : DataC) (cl : ClaimC) (w : WarrantC)
    (b : BackingC) (r : RebuttalC) :
    (dataCellOf d).length ≤ 80 ∧
    (80 < (joinSep (strLit "; ") (d.facts.take 2)).length →
      ∃ t, dataCellOf d = t ++ ell) ∧
    (claimCellOf cl).length ≤ 83 ∧
    (cl.statement.length ≤ 80 → claimCellOf cl = cl.statement) ∧
    (80 < cl.statement.length →
      claimCellOf cl = cl.statement.take 80 ++ ell ∧
      (claimCellOf cl).length = 83) ∧
    (warrantCellOf w).length ≤ 83 ∧
    (80 < w.principle.length → ∃ t, warrantCellOf w = t ++ ell) ∧
    (backingCellOf b).length ≤ 83 ∧
    (80 < b.authority.length → ∃ t, backingCellOf b = t ++ ell) ∧
    (rebuttalCellOf r).length ≤ 80 ∧
    (80 < (joinSep (strLit "; ") (r.edge_cases.take 2)).length →
      ∃ t, rebuttalCellOf r = t ++ ell) := by
  refine ⟨(truncJoined_spec d.facts).1,
    fun h => ⟨_, (truncJoined_spec d.facts).2 h⟩,
    (truncField_spec cl.statement).1,
    (truncField_spec cl.statement).2.1,
    fun h => (truncField_spec cl.statement).2.2 h,
    (truncField_spec w.principle).1,
    fun h => ⟨_, ((truncField_spec w.principle).2.2 h).1⟩,
    (truncField_spec b.authority).1,
    fun h => ⟨_, ((truncField_spec b.authority).2.2 h).1⟩,
    (truncJoined_spec r.edge_cases).1,
    fun h => ⟨_, (truncJoined_spec r.edge_cases).2 h⟩⟩

/-- The validated `Backing` record behind `strongBackingPayload`. -/
def sampleBackingC : BackingC :=
  ⟨strLit "Peer reviewed studies and statutory authority.",
   [sampleCitation], strLit "strong"⟩

/-- A validated `Rebuttal` record with a conditional edge case. -/
def sampleRebuttalC : RebuttalC :=
  ⟨[strLit "If the premise fails, the warrant does not hold."], [],
   strLit "These limitations are well documented.", strLit "minor"⟩

/-- Witness for C9 (amended): at the concrete components, the long claim
statement renders as exactly its first 80 characters plus the ellipsis (83
characters), and the data cell stays within 80. -/
theorem markdown_truncation_bounds_witness :
    claimCellOf longClaimC = longStatement.take 80 ++ ell ∧
    (claimCellOf longClaimC).length = 83 ∧
    (dataCellOf sampleDataC).length ≤ 80 := by
  have h := markdown_truncation_bounds sampleDataC longClaimC sampleWarrantC
    sampleBackingC sampleRebuttalC
  exact ⟨(h.2.2.2.2.1 (by decide)).1, (h.2.2.2.2.1 (by decide)).2, h.1⟩

/-- C10.  `_get_env_bool` returns the default when the variable is unset,
returns `False` exactly when the stripped, lower-cased value is one of
`"0"`, `"false"`, `"no"`, `"off"`, and returns `True` for every other set
value — including the empty string. -/
theorem get_env_bool_characterization :
    (∀ d : Bool, getEnvBool none d = d) ∧
    (∀ (v : Str) (d : Bool),
      getEnvBool (some v) d = false ↔ pyLower (pyStrip v) ∈ falsyValues) ∧
    (∀ (v : Str) (d : Bool),
      getEnvBool (some v) d = true ↔ pyLower (pyStrip v) ∉ falsyValues) ∧
    (∀ d : Bool, getEnvBool (some []) d = true) := by
  refine ⟨fun d => rfl, fun v d => ?_, fun v d => ?_, fun d => rfl⟩
  · simp [getEnvBool]
  · simp [getEnvBool]

end Toulmini
